import Mathlib

/-!
Verification of the conversation-channel core of `pam-rampdelay`
(`src/crates/pam/src/conv.rs`), as a shallow embedding.

Modelling conventions:
- Raw pointers/addresses (`*const c_void`, `*const Inner`) are `Nat`
  addresses (`Addr`); the null pointer is address 0, but the embedding
  tracks nullability with `Option` where the code checks it.
- A C string (the buffer behind a `*const c_char`) is modelled by its byte
  content as a `List Nat`, including the trailing terminator 0 when the
  buffer is the null-terminated one built by `CString::new`.
- `PamMessageStyle` and `PamResultCode` are declared in the crate root,
  outside this fragment. Modelled from the spec: both are `int32` tags on
  the wire (spec section 6), so they are embedded as `Int`, with the
  success code `PAM_SUCCESS` a fixed distinguished value; the claims only
  compare codes against `PAM_SUCCESS` and propagate them.
- The foreign callback `conv` receives the message array and the opaque
  context pointer and owns the response out-slot: it is embedded as a
  function returning the status code together with the final content of
  the out-slot (`none` = the slot still holds the null pointer `send`
  initialised it to, `some r` = the callback stored a pointer to the
  response `r`).
- `send` returns its outcome together with the trace of callback
  invocations it performed, so that claims about how often and with which
  arguments the callback is invoked are statable.
-/

namespace Pam

/-- Heap addresses standing for raw pointers. -/
abbrev Addr := Nat

/-- Modelled from the spec: `PamMessageStyle` (crate root, not in this
fragment) is the `int32` style tag of a message (spec section 6). -/
abbrev PamMessageStyle := Int

/-- Modelled from the spec: `PamResultCode` (crate root, not in this
fragment) is the `int32` status-code vocabulary (spec sections 4.4, 6). -/
abbrev PamResultCode := Int

/-- Modelled from the spec: the success status code. Its concrete value is
irrelevant to this core, which only compares against it and propagates
other codes unchanged. -/
def PAM_SUCCESS : PamResultCode := 0

/-- `ItemType` from conv.rs: the extension tags; only `Conv = 5` exists. -/
inductive ItemType where
  | Conv
deriving DecidableEq

/-- The integer discriminant of an `ItemType` (`Conv = 5` in the source). -/
def ItemType.toInt : ItemType → Int
  | .Conv => 5

/-- `PamMessage` from conv.rs: `{ msg_style, msg }`, where `msg` models the
null-terminated byte buffer the `*const c_char` field points to. -/
structure PamMessage where
  msg_style : PamMessageStyle
  msg : List Nat
deriving DecidableEq, Repr

/-- `PamResponse` from conv.rs: `resp` models the `*const c_char` text
pointer (`none` = null, `some bytes` = points to a C string whose content
before the terminator is `bytes`); `resp_retcode` is the reserved field. -/
structure PamResponse where
  resp : Option (List Nat)
  resp_retcode : Int
deriving DecidableEq, Repr

/-- `Inner` from conv.rs: the pam_conv handle pair. `conv` is the foreign
callback, embedded as described in the module docstring, and `appdata_ptr`
the opaque context pointer. -/
structure Inner where
  conv : Int → List PamMessage → Addr → PamResultCode × Option PamResponse
  appdata_ptr : Addr

/-- One recorded invocation of the foreign callback: the `num_msg` count,
the messages behind the array-of-pointers argument, and the opaque context
pointer passed as `appdata_ptr`. -/
structure ConvCall where
  num_msg : Int
  messages : List PamMessage
  appdata : Addr
deriving DecidableEq, Repr

/-- The possible outcomes of `Conv::send`:
- `panicked`: `CString::new(msg).unwrap()` panicked on an embedded null;
- `nullDeref`: `(*resp_ptr).resp` dereferenced the still-null out-slot
  (undefined behaviour in the source);
- `ok r`: `Ok(None)` / `Ok(Some cstr)` with `r` the response content;
- `err code`: `Err(code)`. -/
inductive SendOutcome where
  | panicked
  | nullDeref
  | ok (resp : Option (List Nat))
  | err (code : PamResultCode)
deriving DecidableEq, Repr

/-- `CString::new` on the bytes of `msg`: fails on an embedded null byte,
otherwise yields the null-terminated buffer. -/
def CString.new (bytes : List Nat) : Option (List Nat) :=
  if 0 ∈ bytes then none else some (bytes ++ [0])

/-- `Conv<'a>(&'a Inner)` from conv.rs: a borrowed reference to an `Inner`,
embedded as the address the reference points at; the borrowed heap is
passed explicitly to `Conv.send`. -/
structure Conv where
  ref : Addr
deriving DecidableEq, Repr

/-- The tail of `Conv::send` after the foreign call returns: the
`if PamResultCode::PAM_SUCCESS == ret` branch, with the null check on the
out-slot (`none` = `resp_ptr` still null, so the source's unconditional
`(*resp_ptr).resp` is a null dereference) and then on `resp`. -/
def interpretRet (ret : PamResultCode) (slot : Option PamResponse) : SendOutcome :=
  if ret = PAM_SUCCESS then
    match slot with
    | none => SendOutcome.nullDeref
    | some r =>
      match r.resp with
      | none => SendOutcome.ok none
      | some bytes => SendOutcome.ok (some bytes)
  else SendOutcome.err ret

/-- `Conv::send` from conv.rs. `mem` is the heap of `Inner` values the
`Conv` reference borrows from. Steps, mirroring the source:
initialise `resp_ptr` to null (the `none` default of the slot);
`CString::new(msg).unwrap()` (panic on failure); build the one
`PamMessage`; call the callback once with `num_msg = 1`, the one-message
array and `appdata_ptr` passed through unchanged; then interpret the
returned status and out-slot. The second component is the callback
invocation trace. -/
def Conv.send (mem : Addr → Inner) (self : Conv) (style : PamMessageStyle)
    (msg : List Nat) : SendOutcome × List ConvCall :=
  let inner := mem self.ref
  match CString.new msg with
  | none => (SendOutcome.panicked, [])
  | some buf =>
    let m : PamMessage := { msg_style := style, msg := buf }
    let r := inner.conv 1 [m] inner.appdata_ptr
    (interpretRet r.1 r.2, [⟨1, [m], inner.appdata_ptr⟩])

/-- `<Conv as Item>::type_id` from conv.rs: returns `ItemType::Conv`. -/
def Conv.type_id : ItemType := ItemType.Conv

/-- `<Conv as Item>::from_raw` from conv.rs: `Self(&*raw)` reinterprets the
raw pointer as the borrowed reference. -/
def Conv.from_raw (raw : Addr) : Conv := ⟨raw⟩

/-- `<Conv as Item>::into_raw` from conv.rs: `self.0 as _` yields the
address the reference points at. -/
def Conv.into_raw (self : Conv) : Addr := self.ref

/-- Claim C1: for every input text containing no null bytes and every
style, `send` builds exactly one `PamMessage` whose style field equals the
given style and invokes the callback exactly once, with message count 1,
a one-message array, and the null-terminated copy `text ++ [0]` of the
text, whose content excluding the terminator equals the input exactly. -/
theorem send_builds_one_message (mem : Addr → Inner) (c : Conv)
    (style : PamMessageStyle) (text : List Nat) (hnul : 0 ∉ text) :
    (Conv.send mem c style text).2 =
      [⟨1, [⟨style, text ++ [0]⟩], (mem c.ref).appdata_ptr⟩] ∧
    (text ++ [0]).dropLast = text := by
  constructor
  · simp [Conv.send, CString.new, hnul]
  · simp

theorem send_builds_one_message_witness :
    (Conv.send (fun _ => ⟨fun _ _ _ => (PAM_SUCCESS, none), 7⟩) ⟨3⟩ 1
        [80, 97, 115, 115]).2 =
      [⟨1, [⟨1, [80, 97, 115, 115] ++ [0]⟩], 7⟩] ∧
    ([80, 97, 115, 115] ++ [0]).dropLast = [80, 97, 115, 115] :=
  send_builds_one_message (fun _ => ⟨fun _ _ _ => (PAM_SUCCESS, none), 7⟩)
    ⟨3⟩ 1 [80, 97, 115, 115] (by decide)

/-- Claim C5: for every input text containing an embedded null byte,
`send` fails at message-construction time (`CString::new(msg).unwrap()`
panics before any foreign call) and the callback is never invoked (empty
invocation trace). -/
theorem send_embedded_nul_fails_fast (mem : Addr → Inner) (c : Conv)
    (style : PamMessageStyle) (text : List Nat) (hnul : 0 ∈ text) :
    Conv.send mem c style text = (SendOutcome.panicked, []) := by
  simp [Conv.send, CString.new, hnul]

theorem send_embedded_nul_fails_fast_witness :
    Conv.send (fun _ => ⟨fun _ _ _ => (PAM_SUCCESS, none), 7⟩) ⟨3⟩ 1
        [65, 0, 66] = (SendOutcome.panicked, []) :=
  send_embedded_nul_fails_fast (fun _ => ⟨fun _ _ _ => (PAM_SUCCESS, none), 7⟩)
    ⟨3⟩ 1 [65, 0, 66] (by decide)

/-- Claim C2: for every style and every callback that returns the success
status having stored a response whose text pointer is non-null, `send`
returns success carrying exactly that response text, byte-for-byte. -/
theorem send_returns_response_text (mem : Addr → Inner) (c : Conv)
    (style : PamMessageStyle) (text bytes : List Nat) (rc : Int)
    (hnul : 0 ∉ text)
    (hcb : (mem c.ref).conv 1 [⟨style, text ++ [0]⟩] (mem c.ref).appdata_ptr
            = (PAM_SUCCESS, some ⟨some bytes, rc⟩)) :
    (Conv.send mem c style text).1 = SendOutcome.ok (some bytes) := by
  simp [Conv.send, CString.new, hnul, hcb, interpretRet]

theorem send_returns_response_text_witness :
    (Conv.send (fun _ => ⟨fun _ _ _ => (PAM_SUCCESS, some ⟨some [115, 101, 99], 0⟩), 7⟩)
        ⟨3⟩ 1 [80, 119]).1 = SendOutcome.ok (some [115, 101, 99]) :=
  send_returns_response_text
    (fun _ => ⟨fun _ _ _ => (PAM_SUCCESS, some ⟨some [115, 101, 99], 0⟩), 7⟩)
    ⟨3⟩ 1 [80, 119] [115, 101, 99] 0 (by decide) rfl

/-- Claim C3: for every style, when the callback returns the success status
having stored a response whose text pointer is null, `send` returns
`Ok(None)` ("no response"), not an error. -/
theorem send_null_response_text_ok_none (mem : Addr → Inner) (c : Conv)
    (style : PamMessageStyle) (text : List Nat) (rc : Int)
    (hnul : 0 ∉ text)
    (hcb : (mem c.ref).conv 1 [⟨style, text ++ [0]⟩] (mem c.ref).appdata_ptr
            = (PAM_SUCCESS, some ⟨none, rc⟩)) :
    (Conv.send mem c style text).1 = SendOutcome.ok none := by
  simp [Conv.send, CString.new, hnul, hcb, interpretRet]

theorem send_null_response_text_ok_none_witness :
    (Conv.send (fun _ => ⟨fun _ _ _ => (PAM_SUCCESS, some ⟨none, 0⟩), 7⟩)
        ⟨3⟩ 4 [73, 110]).1 = SendOutcome.ok none :=
  send_null_response_text_ok_none
    (fun _ => ⟨fun _ _ _ => (PAM_SUCCESS, some ⟨none, 0⟩), 7⟩)
    ⟨3⟩ 4 [73, 110] 0 (by decide) rfl

/-- Claim C4: for every non-success status code returned by the callback,
`send` returns exactly that code, unmodified, as its error value, the
callback having been invoked exactly once (no retry) and the code not
interpreted locally. -/
theorem send_propagates_error_code (mem : Addr → Inner) (c : Conv)
    (style : PamMessageStyle) (text : List Nat) (ret : PamResultCode)
    (slot : Option PamResponse)
    (hnul : 0 ∉ text)
    (hret : ret ≠ PAM_SUCCESS)
    (hcb : (mem c.ref).conv 1 [⟨style, text ++ [0]⟩] (mem c.ref).appdata_ptr
            = (ret, slot)) :
    (Conv.send mem c style text).1 = SendOutcome.err ret ∧
    (Conv.send mem c style text).2.length = 1 := by
  constructor
  · simp [Conv.send, CString.new, hnul, hcb, interpretRet, hret]
  · simp [Conv.send, CString.new, hnul]

theorem send_propagates_error_code_witness :
    (Conv.send (fun _ => ⟨fun _ _ _ => (19, none), 7⟩) ⟨3⟩ 1 [80]).1
        = SendOutcome.err 19 ∧
    (Conv.send (fun _ => ⟨fun _ _ _ => (19, none), 7⟩) ⟨3⟩ 1 [80]).2.length = 1 :=
  send_propagates_error_code (fun _ => ⟨fun _ _ _ => (19, none), 7⟩)
    ⟨3⟩ 1 [80] 19 none (by decide) (by decide) rfl

/-- Claim C6: round-trip of the `Item` implementation: `into_raw` followed
by `from_raw` borrows the same `Inner` (the same address), so every
subsequent `send` on the round-tripped value behaves identically to the
same call on the original; and for every pointer `p`,
`into_raw (from_raw p) = p`. -/
theorem item_round_trip (mem : Addr → Inner) (p : Addr) (c : Conv) :
    Conv.into_raw (Conv.from_raw p) = p ∧
    (Conv.from_raw (Conv.into_raw c)).ref = c.ref ∧
    ∀ (style : PamMessageStyle) (msg : List Nat),
      Conv.send mem (Conv.from_raw (Conv.into_raw c)) style msg
        = Conv.send mem c style msg := by
  refine ⟨rfl, rfl, fun style msg => rfl⟩

/-- Claim C7: `Conv`'s `type_id` returns the conversation extension tag
`ItemType::Conv`, whose integer discriminant is exactly 5. -/
theorem conv_type_id_is_five :
    Conv.type_id = ItemType.Conv ∧ ItemType.toInt Conv.type_id = 5 := by
  exact ⟨rfl, rfl⟩

/-- Helper: the post-call interpretation only looks at the `resp` field of
the stored response, never at `resp_retcode`. -/
theorem interpretRet_resp_congr (ret : PamResultCode) (s₁ s₂ : Option PamResponse)
    (h : Option.map PamResponse.resp s₁ = Option.map PamResponse.resp s₂) :
    interpretRet ret s₁ = interpretRet ret s₂ := by
  cases s₁ with
  | none =>
    cases s₂ with
    | none => rfl
    | some r => simp at h
  | some r₁ =>
    cases s₂ with
    | none => simp at h
    | some r₂ =>
      simp only [Option.map_some', Option.some.injEq] at h
      simp [interpretRet, h]

/-- Claim C8: on every `send` call, the opaque context pointer stored in
the handle is passed to the callback exactly as stored (every recorded
invocation carries `appdata_ptr` verbatim), and this layer never inspects
it: if the callback itself ignores its context argument, the outcome of
`send` is independent of the stored `appdata_ptr`. No field of the handle
is modified (`send` is a pure function of the borrowed `Inner`). -/
theorem send_appdata_opaque (mem mem' : Addr → Inner) (c : Conv)
    (style : PamMessageStyle) (text : List Nat)
    (hconv : (mem' c.ref).conv = (mem c.ref).conv)
    (hign : ∀ n ms a b, (mem c.ref).conv n ms a = (mem c.ref).conv n ms b) :
    (∀ call ∈ (Conv.send mem c style text).2,
        call.appdata = (mem c.ref).appdata_ptr) ∧
    (Conv.send mem' c style text).1 = (Conv.send mem c style text).1 := by
  by_cases hn : 0 ∈ text
  · constructor
    · intro call hcall
      simp [Conv.send, CString.new, hn] at hcall
    · simp [Conv.send, CString.new, hn]
  · constructor
    · intro call hcall
      simp [Conv.send, CString.new, hn] at hcall
      simp [hcall]
    · simp only [Conv.send, CString.new, hn, if_false, ite_false]
      rw [hconv, hign 1 _ (mem' c.ref).appdata_ptr (mem c.ref).appdata_ptr]

theorem send_appdata_opaque_witness :
    (∀ call ∈ (Conv.send (fun _ => ⟨fun _ _ _ => (19, none), 7⟩) ⟨3⟩ 1 [80]).2,
        call.appdata = 7) ∧
    (Conv.send (fun _ => ⟨fun _ _ _ => (19, none), 8⟩) ⟨3⟩ 1 [80]).1
      = (Conv.send (fun _ => ⟨fun _ _ _ => (19, none), 7⟩) ⟨3⟩ 1 [80]).1 :=
  send_appdata_opaque (fun _ => ⟨fun _ _ _ => (19, none), 7⟩)
    (fun _ => ⟨fun _ _ _ => (19, none), 8⟩) ⟨3⟩ 1 [80]
    rfl (fun _ _ _ _ => rfl)

/-- Claim C9: the result of `send` is independent of the reserved
`resp_retcode` field: two callback behaviours agreeing on status and on
the `resp` text pointer, but differing arbitrarily in `resp_retcode`,
give `send` the same result — the field is never read. -/
theorem send_ignores_resp_retcode (mem₁ mem₂ : Addr → Inner) (c : Conv)
    (style : PamMessageStyle) (text : List Nat)
    (had : (mem₁ c.ref).appdata_ptr = (mem₂ c.ref).appdata_ptr)
    (h : ∀ n ms a,
        ((mem₁ c.ref).conv n ms a).1 = ((mem₂ c.ref).conv n ms a).1 ∧
        Option.map PamResponse.resp ((mem₁ c.ref).conv n ms a).2
          = Option.map PamResponse.resp ((mem₂ c.ref).conv n ms a).2) :
    (Conv.send mem₁ c style text).1 = (Conv.send mem₂ c style text).1 := by
  by_cases hn : 0 ∈ text
  · simp [Conv.send, CString.new, hn]
  · simp only [Conv.send, CString.new, hn, if_false, ite_false]
    rw [had]
    obtain ⟨h1, h2⟩ :=
      h 1 [⟨style, text ++ [0]⟩] (mem₂ c.ref).appdata_ptr
    rw [h1]
    exact interpretRet_resp_congr _ _ _ h2

theorem send_ignores_resp_retcode_witness :
    (Conv.send (fun _ => ⟨fun _ _ _ => (PAM_SUCCESS, some ⟨some [115], 0⟩), 7⟩)
        ⟨3⟩ 1 [80]).1
      = (Conv.send (fun _ => ⟨fun _ _ _ => (PAM_SUCCESS, some ⟨some [115], 1⟩), 7⟩)
        ⟨3⟩ 1 [80]).1 :=
  send_ignores_resp_retcode
    (fun _ => ⟨fun _ _ _ => (PAM_SUCCESS, some ⟨some [115], 0⟩), 7⟩)
    (fun _ => ⟨fun _ _ _ => (PAM_SUCCESS, some ⟨some [115], 1⟩), 7⟩)
    ⟨3⟩ 1 [80] rfl (fun _ _ _ => ⟨rfl, rfl⟩)

/-- Claim C10: when the callback returns the success status without having
written the response out-slot (which `send` initialised to null), `send`
dereferences the null out-pointer: the source's unconditional
`(*resp_ptr).resp` has no null check, so such a callback drives `send`
into the null-dereference outcome. -/
theorem send_success_unwritten_slot_null_deref (mem : Addr → Inner) (c : Conv)
    (style : PamMessageStyle) (text : List Nat)
    (hnul : 0 ∉ text)
    (hcb : (mem c.ref).conv 1 [⟨style, text ++ [0]⟩] (mem c.ref).appdata_ptr
            = (PAM_SUCCESS, none)) :
    (Conv.send mem c style text).1 = SendOutcome.nullDeref := by
  simp [Conv.send, CString.new, hnul, hcb, interpretRet]

theorem send_success_unwritten_slot_null_deref_witness :
    (Conv.send (fun _ => ⟨fun _ _ _ => (PAM_SUCCESS, none), 9⟩) ⟨2⟩ 2 [81]).1
      = SendOutcome.nullDeref :=
  send_success_unwritten_slot_null_deref
    (fun _ => ⟨fun _ _ _ => (PAM_SUCCESS, none), 9⟩) ⟨2⟩ 2 [81]
    (by decide) rfl

end Pam
